import Mathlib

/-!
The fixed-greeting HTTP server of `server.js`.

A shallow embedding of `src/server.js`:

```
const PORT = process.env.PORT || 80;
const server = http.createServer((req, res) => {
  res.writeHead(200, { "Content-Type": "text/plain" });
  res.end("Hello from HNG DevOps Stage 1!\n");
});
server.listen(PORT, () => {
  console.log(`Server running on port ${PORT}`);
});
```

The script's own text is translated statement by statement (`PORT`, `handler`,
`listenCallback`, `startup`).  The library calls it makes (`res.writeHead`,
`res.end`, `server.listen`, `console.log`) are modelled as small state
transformers; whether the operating system grants the bind is a parameter.
-/

namespace HngServer

/-! ## JavaScript values -/

/-- The JavaScript values that `server.js` manipulates: `undefined` (a missing
property of `process.env`), strings (the values of `process.env`) and
non-negative integer numbers (the literal `80`). -/
inductive JSVal where
  | undefined : JSVal
  | str (s : String) : JSVal
  | num (n : Nat) : JSVal
deriving DecidableEq, Repr

/-- ECMAScript `ToBoolean` on these values: `undefined`, the empty string and
the number `0` are falsy, everything else is truthy. -/
def toBoolean : JSVal → Bool
  | .undefined => false
  | .str s => decide (s ≠ "")
  | .num n => decide (n ≠ 0)

/-- The JavaScript operator `a || b`: `a` when it is truthy, otherwise `b`. -/
def jsOr (a b : JSVal) : JSVal :=
  if toBoolean a then a else b

/-- ECMAScript `ToString`, as a template literal applies it to `${v}`. -/
def toJSString : JSVal → String
  | .undefined => "undefined"
  | .str s => s
  | .num n => toString n

/-- `Number.isInteger(v)`: true for (integer) numbers only, never for strings. -/
def isInteger : JSVal → Bool
  | .num _ => true
  | _ => false

/-- The process environment: variable names with their string values. -/
abbrev Env := List (String × String)

/-- The property read `process.env[name]`: the variable's string, or
`undefined` when the variable is not set. -/
def envGet (env : Env) (name : String) : JSVal :=
  match env.lookup name with
  | some s => .str s
  | none => .undefined

/-- Line 3: `const PORT = process.env.PORT || 80;` -/
def PORT (env : Env) : JSVal :=
  jsOr (envGet env "PORT") (.num 80)

/-! ## Requests and responses -/

/-- An incoming request as the handler receives it (`req`). -/
structure Request where
  method : String
  url : String
  headers : List (String × String)
  body : String
deriving DecidableEq, Repr

/-- The calls a handler can make on its response object. -/
inductive ResCall where
  | writeHead (status : Nat) (headers : List (String × String)) : ResCall
  | endWith (data : String) : ResCall
deriving DecidableEq, Repr

/-- Errors that the library raises. -/
inductive HttpError where
  | headersSent : HttpError
  | writeAfterEnd : HttpError
  | bindFailed (port : JSVal) : HttpError
deriving DecidableEq, Repr

/-- The response object (`res`): the status and the headers set through
`writeHead`, whether the head was written, whether this response may carry a
body at all, the body that goes out on the wire, whether the response was
ended, and the history of calls made on the object. -/
structure Response where
  statusCode : Nat
  headers : List (String × String)
  headWritten : Bool
  hasBody : Bool
  body : String
  finished : Bool
  calls : List ResCall
deriving DecidableEq, Repr

/-- The response object as the library builds it for a request and hands it
to the handler: status 200 by default, nothing set, nothing written; the
response to a `HEAD` request may carry no body. -/
def Response.fresh (req : Request) : Response :=
  { statusCode := 200, headers := [], headWritten := false,
    hasBody := decide (req.method ≠ "HEAD"), body := "",
    finished := false, calls := [] }

/-- The status codes whose responses may carry a body: all but 1xx, 204 and
304. -/
def statusAllowsBody (status : Nat) : Bool :=
  !(decide (status = 204) || decide (status = 304) ||
    (decide (100 ≤ status) && decide (status ≤ 199)))

/-- The library call `res.writeHead(status, headers)`: records the status and
the headers, and rules the body out for a status that allows none; raises when
the head was already written. -/
def Response.writeHead (r : Response) (status : Nat) (hs : List (String × String)) :
    Except HttpError Response :=
  if r.headWritten then .error .headersSent
  else .ok { r with statusCode := status, headers := r.headers ++ hs, headWritten := true,
                    hasBody := r.hasBody && statusAllowsBody status,
                    calls := r.calls ++ [.writeHead status hs] }

/-- The library call `res.end(data)`: appends `data` to the body when the
response may carry one and discards it otherwise (the response to a `HEAD`
request), then finishes the response; raises when the response was already
finished. -/
def Response.endWith (r : Response) (data : String) : Except HttpError Response :=
  if r.finished then .error .writeAfterEnd
  else .ok { r with body := if r.hasBody then r.body ++ data else r.body,
                    headWritten := true, finished := true,
                    calls := r.calls ++ [.endWith data] }

/-! ## Process state -/

/-- How far the process has got. -/
inductive ProcStatus where
  | starting : ProcStatus
  | listening : ProcStatus
  | crashed (e : HttpError) : ProcStatus
deriving DecidableEq, Repr

/-- The state of the process outside any response object: the module constant
`PORT`, the lines written by `console.log`, the arguments of every
`server.listen` call made so far, and the status. -/
structure Proc where
  port : JSVal
  console : List String
  listenCalls : List JSVal
  status : ProcStatus
deriving DecidableEq, Repr

/-- The library call `console.log(line)`. -/
def consoleLog (line : String) (p : Proc) : Proc :=
  { p with console := p.console ++ [line] }

/-- A statement of a request handler: it runs with the whole process state and
the response object in reach, and may raise. -/
abbrev Stmt := Proc × Response → Except HttpError (Proc × Response)

/-- A statement `res.writeHead(status, hs);`. -/
def resWriteHead (status : Nat) (hs : List (String × String)) : Stmt :=
  fun s => (s.2.writeHead status hs).map (fun r => (s.1, r))

/-- A statement `res.end(data);`. -/
def resEnd (data : String) : Stmt :=
  fun s => (s.2.endWith data).map (fun r => (s.1, r))

/-- Statements run in sequence; the first one that raises ends the run. -/
def runStmts : List Stmt → Stmt
  | [], s => .ok s
  | st :: rest, s =>
    match st s with
    | .ok s1 => runStmts rest s1
    | .error e => .error e

/-- Lines 6-7, the body of the handler `(req, res) => { ... }`, as its two
statements in order. -/
def handlerStmts (_req : Request) : List Stmt :=
  [ resWriteHead 200 [("Content-Type", "text/plain")],
    resEnd "Hello from HNG DevOps Stage 1!\n" ]

/-- Lines 5-8: the request handler given to `http.createServer`. -/
def handler (req : Request) : Stmt :=
  runStmts (handlerStmts req)

/-- The response a finished run of the handler leaves behind. -/
def handled (req : Request) (p : Proc) : Except HttpError Response :=
  (handler req (p, Response.fresh req)).map Prod.snd

/-! ## Startup -/

/-- Line 11, the callback `() => { console.log("Server running on port " + PORT) }`
(a template literal in the source). -/
def listenCallback (port : JSVal) (p : Proc) : Proc :=
  consoleLog ("Server running on port " ++ toJSString port) p

/-- The library call `server.listen(port, cb)`.  The call is recorded; when the
operating system grants the bind (`bindOk port`), the server is listening and
`cb` runs once; otherwise the server emits an `error` event, and since the
script registers no listener for it the process ends with that error. -/
def listen (bindOk : JSVal → Bool) (port : JSVal) (cb : Proc → Proc) (p : Proc) : Proc :=
  let p1 := { p with listenCalls := p.listenCalls ++ [port] }
  if bindOk port then cb { p1 with status := .listening }
  else { p1 with status := .crashed (.bindFailed port) }

/-- The script from top to bottom: resolve `PORT`, create the server, call
`server.listen(PORT, callback)`. -/
def startup (env : Env) (bindOk : JSVal → Bool) : Proc :=
  let port := PORT env
  let p0 : Proc := { port := port, console := [], listenCalls := [], status := .starting }
  listen bindOk port (listenCallback port) p0

/-- Serving requests one after another, each with a fresh response object;
the process state is threaded through, the responses are collected. -/
def serve : List Request → Proc → Except HttpError (Proc × List Response)
  | [], p => .ok (p, [])
  | req :: rest, p =>
    match handler req (p, Response.fresh req) with
    | .error e => .error e
    | .ok (p1, r) =>
      match serve rest p1 with
      | .error e => .error e
      | .ok (p2, rs) => .ok (p2, r :: rs)

/-- The response every finished run of the handler for `req` is compared
against: status 200, the one header, both calls recorded, and as body the
greeting, or nothing when `req` is a `HEAD` request. -/
def responseFor (req : Request) : Response :=
  { statusCode := 200
    headers := [("Content-Type", "text/plain")]
    headWritten := true
    hasBody := decide (req.method ≠ "HEAD")
    body := if req.method = "HEAD" then "" else "Hello from HNG DevOps Stage 1!\n"
    finished := true
    calls := [ .writeHead 200 [("Content-Type", "text/plain")],
               .endWith "Hello from HNG DevOps Stage 1!\n" ] }

/-- True of a `writeHead` call. -/
def ResCall.isWriteHead : ResCall → Bool
  | .writeHead _ _ => true
  | .endWith _ => false

/-- True of an `end` call. -/
def ResCall.isEnd : ResCall → Bool
  | .writeHead _ _ => false
  | .endWith _ => true

/-! ## Requests in flight at the same time -/

/-- A request in flight: its request, its response object, how many statements
of the handler have run for it, and the error raised by one of them, if any. -/
structure Task where
  req : Request
  res : Response
  pc : Nat
  error : Option HttpError

/-- The process state together with the requests in flight, by connection
number. -/
structure Sys where
  proc : Proc
  tasks : Nat → Task

/-- All requests arrived, no statement run yet. -/
def Sys.init (p : Proc) (reqs : Nat → Request) : Sys :=
  { proc := p
    tasks := fun i => { req := reqs i, res := Response.fresh (reqs i), pc := 0, error := none } }

/-- One scheduling step: the next statement of the handler runs for request
`i` (nothing happens when its handler has finished or raised). -/
def stepTask (i : Nat) (s : Sys) : Sys :=
  let t := s.tasks i
  match t.error, (handlerStmts t.req)[t.pc]? with
  | none, some st =>
    match st (s.proc, t.res) with
    | .ok (p1, r1) =>
      { proc := p1, tasks := Function.update s.tasks i { t with res := r1, pc := t.pc + 1 } }
    | .error e =>
      { proc := s.proc, tasks := Function.update s.tasks i { t with error := some e } }
  | _, _ => s

/-- A schedule is the list of connection numbers in the order in which their
handlers get to run one statement. -/
def runSchedule : List Nat → Sys → Sys
  | [], s => s
  | i :: rest, s => runSchedule rest (stepTask i s)

/-- The response object of `req` after `k` statements of the handler. -/
def resAfter (req : Request) : Nat → Response
  | 0 => Response.fresh req
  | 1 => { statusCode := 200, headers := [("Content-Type", "text/plain")], headWritten := true,
           hasBody := decide (req.method ≠ "HEAD"), body := "", finished := false,
           calls := [.writeHead 200 [("Content-Type", "text/plain")]] }
  | _ + 2 => responseFor req

/-- Where `k` scheduling steps put a request. -/
def taskAfter (req : Request) (k : Nat) : Task :=
  { req := req, res := resAfter req (min k 2), pc := min k 2, error := none }

/-- The process state is `p`, and every request is where the steps counted by
`c` put it. -/
def Tracks (p : Proc) (reqs : Nat → Request) (c : Nat → Nat) (s : Sys) : Prop :=
  s.proc = p ∧ ∀ j, s.tasks j = taskAfter (reqs j) (c j)

/-! ## Port resolution -/

/-- With the variable absent the resolved port is the number 80. -/
theorem PORT_of_absent (env : Env) (h : env.lookup "PORT" = none) : PORT env = .num 80 := by
  simp [PORT, envGet, h, jsOr, toBoolean]

/-- With the variable empty the resolved port is the number 80. -/
theorem PORT_of_empty (env : Env) (h : env.lookup "PORT" = some "") : PORT env = .num 80 := by
  simp [PORT, envGet, h, jsOr, toBoolean]

/-- With the variable set to a non-empty string the resolved port is that string. -/
theorem PORT_of_nonempty (env : Env) (v : String) (h : env.lookup "PORT" = some v)
    (hv : v ≠ "") : PORT env = .str v := by
  simp [PORT, envGet, h, jsOr, toBoolean, hv]

/-- The arguments of the `listen` calls made by the script. -/
theorem startup_listenCalls (env : Env) (bindOk : JSVal → Bool) :
    (startup env bindOk).listenCalls = [PORT env] := by
  unfold startup listen listenCallback consoleLog
  by_cases hb : bindOk (PORT env) = true <;> simp [hb]

/-- The console after the script ran. -/
theorem startup_console (env : Env) (bindOk : JSVal → Bool) :
    (startup env bindOk).console =
      if bindOk (PORT env) then ["Server running on port " ++ toJSString (PORT env)] else [] := by
  unfold startup listen listenCallback consoleLog
  by_cases hb : bindOk (PORT env) = true <;> simp [hb]

/-- The status after the script ran. -/
theorem startup_status (env : Env) (bindOk : JSVal → Bool) :
    (startup env bindOk).status =
      if bindOk (PORT env) then .listening else .crashed (.bindFailed (PORT env)) := by
  unfold startup listen listenCallback consoleLog
  by_cases hb : bindOk (PORT env) = true <;> simp [hb]

/-- The constant `PORT` held by the process. -/
theorem startup_port (env : Env) (bindOk : JSVal → Bool) :
    (startup env bindOk).port = PORT env := by
  unfold startup listen listenCallback consoleLog
  by_cases hb : bindOk (PORT env) = true <;> simp [hb]

/-! ## The handler -/

/-- The template literal of the callback at the default port. -/
theorem listen_line_default :
    "Server running on port " ++ toJSString (.num 80) = "Server running on port 80" := by
  decide

/-- A run of the handler on the fresh response object of its request. -/
theorem handler_fresh (req : Request) (p : Proc) :
    handler req (p, Response.fresh req) = .ok (p, responseFor req) := by
  by_cases hm : req.method = "HEAD"
  · simp [handler, handlerStmts, runStmts, resWriteHead, resEnd, Response.writeHead,
      Response.endWith, Response.fresh, responseFor, Except.map, statusAllowsBody, hm]
  · simp [handler, handlerStmts, runStmts, resWriteHead, resEnd, Response.writeHead,
      Response.endWith, Response.fresh, responseFor, Except.map, statusAllowsBody, hm]

/-- The response left by the handler. -/
theorem handled_eq (req : Request) (p : Proc) : handled req p = .ok (responseFor req) := by
  simp [handled, handler_fresh, Except.map]

/-- Two requests get the same response exactly when both are `HEAD` requests
or neither is. -/
theorem responseFor_eq_iff (r1 r2 : Request) :
    responseFor r1 = responseFor r2 ↔ (r1.method = "HEAD" ↔ r2.method = "HEAD") := by
  by_cases h1 : r1.method = "HEAD" <;> by_cases h2 : r2.method = "HEAD" <;>
    simp [responseFor, h1, h2]

/-- Two requests get the same body exactly when both are `HEAD` requests or
neither is. -/
theorem responseFor_body_eq_iff (r1 r2 : Request) :
    (responseFor r1).body = (responseFor r2).body ↔
      (r1.method = "HEAD" ↔ r2.method = "HEAD") := by
  by_cases h1 : r1.method = "HEAD" <;> by_cases h2 : r2.method = "HEAD" <;>
    simp [responseFor, h1, h2]

/-- Serving a list of requests leaves the process state alone and answers each
request with the response of its own handler run. -/
theorem serve_eq (reqs : List Request) (p : Proc) :
    serve reqs p = .ok (p, reqs.map responseFor) := by
  induction reqs with
  | nil => rfl
  | cons req rest ih => simp [serve, handler_fresh, ih]

/-! ## Interleaved handlers -/

/-- Before any step. -/
theorem tracks_init (p : Proc) (reqs : Nat → Request) :
    Tracks p reqs (fun _ => 0) (Sys.init p reqs) :=
  ⟨rfl, fun _ => rfl⟩

/-- The first statement run for a request whose handler has not started. -/
theorem step_zero (req : Request) (p : Proc) :
    resWriteHead 200 [("Content-Type", "text/plain")] (p, resAfter req 0) =
      .ok (p, resAfter req 1) := by
  simp [resWriteHead, Response.writeHead, Response.fresh, resAfter, Except.map,
    statusAllowsBody]

/-- The second statement run for a request whose handler has run the first. -/
theorem step_one (req : Request) (p : Proc) :
    resEnd "Hello from HNG DevOps Stage 1!\n" (p, resAfter req 1) =
      .ok (p, resAfter req 2) := by
  by_cases hm : req.method = "HEAD" <;>
    simp [resEnd, Response.endWith, resAfter, responseFor, Except.map, hm]

/-- One step for request `i` moves request `i` one statement on (at most to
the end of its handler) and touches nothing else. -/
theorem tracks_step {p : Proc} {reqs : Nat → Request} {c : Nat → Nat} {s : Sys}
    (h : Tracks p reqs c s) (i : Nat) :
    Tracks p reqs (Function.update c i (c i + 1)) (stepTask i s) := by
  obtain ⟨hp, ht⟩ := h
  have hi := ht i
  rcases Nat.lt_or_ge (c i) 2 with hlt | hge
  · interval_cases hc : c i
    · refine ⟨?_, fun j => ?_⟩
      · simp [stepTask, hi, taskAfter, handlerStmts, step_zero, hp]
      · by_cases hj : j = i
        · subst hj
          simp [stepTask, hi, taskAfter, handlerStmts, step_zero, hp, hc]
        · simp [stepTask, hi, taskAfter, handlerStmts, step_zero, hp, hc,
            Function.update_noteq hj, ht j]
    · refine ⟨?_, fun j => ?_⟩
      · simp [stepTask, hi, taskAfter, handlerStmts, step_one, hp]
      · by_cases hj : j = i
        · subst hj
          simp [stepTask, hi, taskAfter, handlerStmts, step_one, hp, hc]
        · simp [stepTask, hi, taskAfter, handlerStmts, step_one, hp, hc,
            Function.update_noteq hj, ht j]
  · have h2 : min (c i) 2 = 2 := Nat.min_eq_right hge
    have h3 : min (c i + 1) 2 = 2 := Nat.min_eq_right (by omega)
    refine ⟨?_, fun j => ?_⟩
    · simp [stepTask, hi, taskAfter, handlerStmts, h2, hp]
    · by_cases hj : j = i
      · subst hj
        simp [stepTask, hi, taskAfter, handlerStmts, h2, h3]
      · simp [stepTask, hi, taskAfter, handlerStmts, h2, Function.update_noteq hj, ht j]

/-- After a schedule every request has taken as many steps as the schedule
names it. -/
theorem tracks_run (p : Proc) (reqs : Nat → Request) (sched : List Nat) :
    ∀ (c : Nat → Nat) (s : Sys), Tracks p reqs c s →
      Tracks p reqs (fun j => c j + sched.count j) (runSchedule sched s) := by
  induction sched with
  | nil => intro c s h; simpa [runSchedule] using h
  | cons i rest ih =>
    intro c s h
    have h1 := ih _ _ (tracks_step h i)
    have hfun : (fun j => Function.update c i (c i + 1) j + rest.count j)
        = (fun j => c j + (i :: rest).count j) := by
      funext j
      by_cases hj : j = i
      · subst hj; simp [List.count_cons]; omega
      · have hne : ¬ i = j := fun e => hj e.symm
        simp [Function.update_noteq hj, List.count_cons, hne]
    rw [hfun] at h1
    exact h1

/-- Whatever response object the handler is run on, a run that finishes
returns the process state it started from. -/
theorem handler_proc (req : Request) (p p1 : Proc) (res r1 : Response)
    (h : handler req (p, res) = .ok (p1, r1)) : p1 = p := by
  unfold handler handlerStmts at h
  simp only [runStmts, resWriteHead, resEnd, Response.writeHead, Response.endWith] at h
  by_cases hw : res.headWritten = true
  · simp [hw, Except.map] at h
  · by_cases hf : res.finished = true
    · simp [hw, hf, Except.map] at h
    · simp [hw, hf, Except.map] at h
      exact h.1.symm

/-! ## The claims -/

/-- C1, as amended: for every request and every process state, the handler run
on the fresh response object of that request succeeds and leaves status 200
and, as headers, exactly the one pair Content-Type: text/plain; it passes the
greeting followed by one newline to `end`; the body of the response is that
string of 31 characters for every request whose method is not HEAD, and empty
for a HEAD request. -/
theorem C1_fixed_response (req : Request) (p : Proc) :
    ∃ r : Response, handler req (p, Response.fresh req) = .ok (p, r) ∧
      r.statusCode = 200 ∧
      r.headers = [("Content-Type", "text/plain")] ∧
      r.calls.getLast? = some (.endWith ("Hello from HNG DevOps Stage 1!" ++ "\n")) ∧
      r.body = (if req.method = "HEAD" then "" else "Hello from HNG DevOps Stage 1!" ++ "\n") ∧
      (req.method ≠ "HEAD" → r.body.length = 31) ∧
      r.finished = true := by
  refine ⟨responseFor req, handler_fresh req p, rfl, rfl, rfl, rfl, ?_, rfl⟩
  intro hm
  simp only [responseFor, if_neg hm]
  decide

/-- C1, the claim as written fails: the response to a HEAD request has status
200 but an empty body, not the greeting. -/
theorem C1_head_request :
    ∃ r : Response,
      handler ⟨"HEAD", "/", [], ""⟩ (startup [] (fun _ => true),
        Response.fresh ⟨"HEAD", "/", [], ""⟩) = .ok (startup [] (fun _ => true), r) ∧
      r.statusCode = 200 ∧
      r.body = "" ∧
      r.body ≠ "Hello from HNG DevOps Stage 1!\n" :=
  ⟨responseFor ⟨"HEAD", "/", [], ""⟩, handler_fresh _ _, rfl, by decide, by decide⟩

/-- C2, as amended: the response depends on the request only through whether
its method is HEAD.  For any two requests and any two process states (so any
two port values) both runs of the handler succeed, with the same status and
the same headers after the same calls, and the two bodies, and with them the
two response objects, are equal exactly when both requests are HEAD requests
or neither is. -/
theorem C2_request_ignored (r1 r2 : Request) (p1 p2 : Proc) :
    ∃ a b : Response, handled r1 p1 = .ok a ∧ handled r2 p2 = .ok b ∧
      a.statusCode = b.statusCode ∧
      a.headers = b.headers ∧
      a.calls = b.calls ∧
      (a.body = b.body ↔ (r1.method = "HEAD" ↔ r2.method = "HEAD")) ∧
      (a = b ↔ (r1.method = "HEAD" ↔ r2.method = "HEAD")) :=
  ⟨responseFor r1, responseFor r2, handled_eq r1 p1, handled_eq r2 p2, rfl, rfl, rfl,
    responseFor_body_eq_iff r1 r2, responseFor_eq_iff r1 r2⟩

/-- C2, the claim as written fails: a GET and a HEAD request for the same path
get different responses, the first with the greeting as body and the second
with none. -/
theorem C2_get_vs_head :
    handled ⟨"GET", "/", [], ""⟩ (startup [] (fun _ => true)) ≠
      handled ⟨"HEAD", "/", [], ""⟩ (startup [] (fun _ => true)) := by
  rw [handled_eq, handled_eq]
  intro h
  have hb := congrArg Response.body (Except.ok.inj h)
  revert hb
  decide

/-- C3: when PORT is absent from the environment, or present with the empty
string as value, the resolved port is the number 80 and 80 is what `listen`
is called with. -/
theorem C3_default_port (env : Env) (bindOk : JSVal → Bool)
    (h : env.lookup "PORT" = none ∨ env.lookup "PORT" = some "") :
    PORT env = .num 80 ∧ (startup env bindOk).listenCalls = [.num 80] := by
  have hp : PORT env = .num 80 := by
    rcases h with h | h
    · exact PORT_of_absent env h
    · exact PORT_of_empty env h
  exact ⟨hp, by rw [startup_listenCalls, hp]⟩

/-- C4: when PORT is set to a non-empty value `v` (whatever its characters),
the resolved port is `v` itself, `listen` is called with `v` and with nothing
else, and the default 80 is not what it is called with. -/
theorem C4_port_override (env : Env) (bindOk : JSVal → Bool) (v : String)
    (h : env.lookup "PORT" = some v) (hv : v ≠ "") :
    PORT env = .str v ∧
      (startup env bindOk).listenCalls = [.str v] ∧
      JSVal.num 80 ∉ (startup env bindOk).listenCalls ∧
      toJSString (PORT env) = v := by
  have hp : PORT env = .str v := PORT_of_nonempty env v h hv
  refine ⟨hp, ?_, ?_, ?_⟩
  · rw [startup_listenCalls, hp]
  · rw [startup_listenCalls, hp]; simp
  · rw [hp]; rfl

/-- C5, as amended: the resolved port is an integer exactly when PORT is absent
or empty, and then it is 80; for a non-empty PORT it is the string value
itself, unconverted; in every case that value is the one the process holds
and the one `listen` is called with. -/
theorem C5_port_type (env : Env) (bindOk : JSVal → Bool) :
    (isInteger (PORT env) = true ↔
        (env.lookup "PORT" = none ∨ env.lookup "PORT" = some "")) ∧
      (isInteger (PORT env) = true → PORT env = .num 80) ∧
      (∀ v, env.lookup "PORT" = some v → v ≠ "" → PORT env = .str v) ∧
      (startup env bindOk).port = PORT env ∧
      (startup env bindOk).listenCalls = [PORT env] := by
  have key : ∀ v, env.lookup "PORT" = some v → v ≠ "" → PORT env = .str v :=
    fun v h hv => PORT_of_nonempty env v h hv
  refine ⟨⟨?_, ?_⟩, ?_, key, startup_port env bindOk, startup_listenCalls env bindOk⟩
  · intro hint
    cases hl : env.lookup "PORT" with
    | none => exact Or.inl rfl
    | some v =>
      by_cases hv : v = ""
      · subst hv; exact Or.inr rfl
      · rw [key v hl hv] at hint
        simp [isInteger] at hint
  · intro h
    rcases h with h | h
    · rw [PORT_of_absent env h]; rfl
    · rw [PORT_of_empty env h]; rfl
  · intro hint
    cases hl : env.lookup "PORT" with
    | none => exact PORT_of_absent env hl
    | some v =>
      by_cases hv : v = ""
      · subst hv; exact PORT_of_empty env hl
      · rw [key v hl hv] at hint
        simp [isInteger] at hint

/-- C5, the claim as written fails: with PORT=8080 the resolved value, which is
also the argument of `listen`, is the string "8080", not an integer. -/
theorem C5_string_port :
    isInteger (PORT [("PORT", "8080")]) = false ∧
      PORT [("PORT", "8080")] = .str "8080" ∧
      (startup [("PORT", "8080")] (fun _ => true)).listenCalls = [.str "8080"] := by
  decide

/-- C6: `listen` is called with the resolved port, and when the bind succeeds
the console holds exactly one line, the text "Server running on port "
followed by that port: "Server running on port 80" when PORT is absent or
empty, and the text followed by `v` when PORT is the non-empty `v`.  When the
bind fails the console is empty, so that line is not there. -/
theorem C6_startup_log (env : Env) (bindOk : JSVal → Bool) :
    (startup env bindOk).listenCalls = [PORT env] ∧
      (bindOk (PORT env) = true →
        (startup env bindOk).console =
          ["Server running on port " ++ toJSString (PORT env)]) ∧
      (bindOk (PORT env) = true →
        (env.lookup "PORT" = none ∨ env.lookup "PORT" = some "") →
        PORT env = .num 80 ∧
        (startup env bindOk).console = ["Server running on port 80"]) ∧
      (∀ v, bindOk (PORT env) = true → env.lookup "PORT" = some v → v ≠ "" →
        PORT env = .str v ∧
        (startup env bindOk).console = ["Server running on port " ++ v]) ∧
      (bindOk (PORT env) = false →
        (startup env bindOk).console = [] ∧
        ("Server running on port " ++ toJSString (PORT env)) ∉ (startup env bindOk).console) := by
  refine ⟨startup_listenCalls env bindOk, ?_, ?_, ?_, ?_⟩
  · intro hb
    rw [startup_console, hb]; rfl
  · intro hb h
    have hp : PORT env = .num 80 := by
      rcases h with h | h
      · exact PORT_of_absent env h
      · exact PORT_of_empty env h
    refine ⟨hp, ?_⟩
    rw [startup_console, hb, hp, listen_line_default]; rfl
  · intro v hb h hv
    have hp : PORT env = .str v := PORT_of_nonempty env v h hv
    refine ⟨hp, ?_⟩
    rw [startup_console, hb, hp]; rfl
  · intro hb
    rw [startup_console, hb]; simp

/-- C7: when the bind of the resolved port fails, the script ends in the bind
error for that port, `listen` was called exactly once, with the resolved
port, no other value was ever passed to it, and nothing was logged. -/
theorem C7_bind_failure_fatal (env : Env) (bindOk : JSVal → Bool)
    (h : bindOk (PORT env) = false) :
    (startup env bindOk).status = .crashed (.bindFailed (PORT env)) ∧
      (startup env bindOk).listenCalls = [PORT env] ∧
      (startup env bindOk).listenCalls.length = 1 ∧
      (∀ q, q ≠ PORT env → q ∉ (startup env bindOk).listenCalls) ∧
      (startup env bindOk).console = [] := by
  refine ⟨?_, startup_listenCalls env bindOk, ?_, ?_, ?_⟩
  · rw [startup_status, h]; rfl
  · rw [startup_listenCalls]; rfl
  · intro q hq
    rw [startup_listenCalls]
    simpa using hq
  · rw [startup_console, h]; rfl

/-- C8: from any process state the handler finishes with that same state (port,
console, listen calls, status); on any response object a finished run returns
the state it started from; and after any sequence of requests served from the
state in which startup ended, the state is still that one. -/
theorem C8_handler_frame (env : Env) (bindOk : JSVal → Bool) (p : Proc) (req : Request)
    (reqs : List Request) :
    (∃ r, handler req (p, Response.fresh req) = .ok (p, r)) ∧
      (∀ res p1 r1, handler req (p, res) = .ok (p1, r1) →
        p1.port = p.port ∧ p1.console = p.console ∧ p1 = p) ∧
      (∃ rs, serve reqs p = .ok (p, rs) ∧ rs.length = reqs.length) ∧
      (∃ rs, serve reqs (startup env bindOk) = .ok (startup env bindOk, rs)) := by
  refine ⟨⟨_, handler_fresh req p⟩, ?_, ⟨_, serve_eq reqs p, by simp⟩, ⟨_, serve_eq reqs _⟩⟩
  intro res p1 r1 h
  have := handler_proc req p p1 res r1 h
  subst this
  exact ⟨rfl, rfl, rfl⟩

/-- C9, as amended: run the handlers of `n` requests statement by statement in
any order `sched` that lets each of them finish (each is named at least
twice).  Then the process state is untouched, every request is exactly where
its own steps alone put it, and each of the `n` has, without error, status
200 and the very response the handler gives when run alone: as body the
greeting for a request whose method is not HEAD, nothing for a HEAD request. -/
theorem C9_interleaving (p : Proc) (reqs : Nat → Request) (n : Nat) (sched : List Nat)
    (h : ∀ i, i < n → 2 ≤ sched.count i) :
    (runSchedule sched (Sys.init p reqs)).proc = p ∧
      (∀ j, (runSchedule sched (Sys.init p reqs)).tasks j =
        taskAfter (reqs j) (sched.count j)) ∧
      (∀ i, i < n →
        ((runSchedule sched (Sys.init p reqs)).tasks i).error = none ∧
        ((runSchedule sched (Sys.init p reqs)).tasks i).res.statusCode = 200 ∧
        ((runSchedule sched (Sys.init p reqs)).tasks i).res.body =
          (if (reqs i).method = "HEAD" then "" else "Hello from HNG DevOps Stage 1!\n") ∧
        .ok ((runSchedule sched (Sys.init p reqs)).tasks i).res = handled (reqs i) p) := by
  have ht := tracks_run p reqs sched (fun _ => 0) (Sys.init p reqs) (tracks_init p reqs)
  obtain ⟨hp, hj⟩ := ht
  simp only [Nat.zero_add] at hj
  refine ⟨hp, hj, ?_⟩
  intro i hi
  have h2 : min (sched.count i) 2 = 2 := Nat.min_eq_right (h i hi)
  rw [hj i, handled_eq]
  unfold taskAfter
  rw [h2]
  exact ⟨rfl, rfl, rfl, rfl⟩

/-- C9, the claim as written fails: of two requests in flight whose statements
alternate, the HEAD request ends with status 200 and an empty body, not the
fixed body that the GET request gets. -/
theorem C9_head_in_flight :
    ((runSchedule [0, 1, 0, 1]
        (Sys.init (startup [] (fun _ => true))
          (fun i => if i = 0 then ⟨"HEAD", "/", [], ""⟩ else ⟨"GET", "/", [], ""⟩))).tasks 0).res.body
        = "" ∧
      ((runSchedule [0, 1, 0, 1]
        (Sys.init (startup [] (fun _ => true))
          (fun i => if i = 0 then ⟨"HEAD", "/", [], ""⟩ else ⟨"GET", "/", [], ""⟩))).tasks 1).res.body
        = "Hello from HNG DevOps Stage 1!\n" := by
  decide

/-- C10: for every request the handler, run on the fresh response object,
succeeds; the calls it made are one `writeHead` and then one `end`, in that
order and nothing else; the response is finished; and its body is the same
two statements whatever the request. -/
theorem C10_two_calls (req : Request) (p : Proc) :
    ∃ r : Response, handler req (p, Response.fresh req) = .ok (p, r) ∧
      r.calls = [ .writeHead 200 [("Content-Type", "text/plain")],
                  .endWith "Hello from HNG DevOps Stage 1!\n" ] ∧
      r.calls.countP ResCall.isWriteHead = 1 ∧
      r.calls.countP ResCall.isEnd = 1 ∧
      r.finished = true ∧
      (handlerStmts req).length = 2 :=
  ⟨responseFor req, handler_fresh req p, rfl, rfl, rfl, rfl, rfl⟩

/-! ## The claims at concrete inputs -/

/-- C3 with PORT set to the empty string, and with PORT absent. -/
theorem C3_default_port_witness :
    ((List.lookup "PORT" [("PORT", "")] = none ∨ List.lookup "PORT" [("PORT", "")] = some "") ∧
      PORT [("PORT", "")] = .num 80 ∧
      (startup [("PORT", "")] (fun _ => true)).listenCalls = [.num 80]) ∧
    (PORT [("HOME", "/root")] = .num 80 ∧
      (startup [("HOME", "/root")] (fun _ => true)).listenCalls = [.num 80]) :=
  ⟨⟨by decide, C3_default_port [("PORT", "")] (fun _ => true) (by decide)⟩,
    C3_default_port [("HOME", "/root")] (fun _ => true) (by decide)⟩

/-- C4 with PORT=8080, and with PORT=0. -/
theorem C4_port_override_witness :
    (List.lookup "PORT" [("PORT", "8080")] = some "8080" ∧ "8080" ≠ "" ∧
      PORT [("PORT", "8080")] = .str "8080" ∧
      (startup [("PORT", "8080")] (fun _ => true)).listenCalls = [.str "8080"] ∧
      JSVal.num 80 ∉ (startup [("PORT", "8080")] (fun _ => true)).listenCalls ∧
      toJSString (PORT [("PORT", "8080")]) = "8080") ∧
    PORT [("PORT", "0")] = .str "0" :=
  ⟨⟨by decide, by decide, C4_port_override [("PORT", "8080")] (fun _ => true) "8080"
      (by decide) (by decide)⟩,
    (C4_port_override [("PORT", "0")] (fun _ => true) "0" (by decide) (by decide)).1⟩

/-- C7 with PORT=8080 on a machine where 8080 cannot be bound although 80
could: the script ends in the error and 80 is never tried. -/
theorem C7_bind_failure_fatal_witness :
    (fun v => decide (v = JSVal.num 80)) (PORT [("PORT", "8080")]) = false ∧
      (startup [("PORT", "8080")] (fun v => decide (v = JSVal.num 80))).status =
        .crashed (.bindFailed (.str "8080")) ∧
      (startup [("PORT", "8080")] (fun v => decide (v = JSVal.num 80))).listenCalls =
        [.str "8080"] ∧
      (startup [("PORT", "8080")] (fun v => decide (v = JSVal.num 80))).console = [] := by
  have h := C7_bind_failure_fatal [("PORT", "8080")] (fun v => decide (v = JSVal.num 80))
    (by decide)
  exact ⟨by decide, h.1, h.2.1, h.2.2.2.2⟩

/-- C9 with fifty GET requests, the first statement of each run in turn and
then the second statements in reverse order. -/
theorem C9_interleaving_witness :
    (∀ i, i < 50 → 2 ≤ (List.range 50 ++ (List.range 50).reverse).count i) ∧
      ∀ i, i < 50 →
        ((runSchedule (List.range 50 ++ (List.range 50).reverse)
          (Sys.init (startup [] (fun _ => true))
            (fun _ => ⟨"GET", "/", [], ""⟩))).tasks i).res.body =
          "Hello from HNG DevOps Stage 1!\n" := by
  have hs : ∀ i, i < 50 → 2 ≤ (List.range 50 ++ (List.range 50).reverse).count i := by
    decide
  exact ⟨hs, fun i hi =>
    ((C9_interleaving (startup [] (fun _ => true)) (fun _ => ⟨"GET", "/", [], ""⟩) 50
      (List.range 50 ++ (List.range 50).reverse) hs).2.2 i hi).2.2.1⟩

end HngServer
